import Mathlib

/-!
Shallow embedding of the DevService Cloudflare worker (event pages served from
a Notion document store, guestbook submissions, lazy Stripe payment-link
provisioning, and a Stripe webhook).  Each outbound HTTP call is modelled by an
oracle parameter carrying that call's outcome; request payloads that no claim
refers to (HTTP headers, Stripe form bodies, full HTML pages) are elided, while
every branch and every piece of data a claim mentions is translated statement
by statement from the JavaScript source files.  Prices are modelled as
rationals (JavaScript numbers; `parseFloat(undefined) || 0` style defaulting is
translated through `Option`).  Thrown JavaScript exceptions are modelled with
`Except String`.
-/

/-- JS truthiness of a nullable string: `null`/absent and the empty string are
falsy (`formData.get(...)` returns a string or null). -/
def jsTruthyO : Option String → Bool
  | none => false
  | some s => !s.isEmpty

/-- JS `s || d` for strings: the empty string is falsy and falls back to `d`. -/
def jsOr (s d : String) : String := if s = "" then d else s

/-- JS `text.substring(0, n)`: the first `n` characters of `s` (the whole
string when it is shorter). -/
def jsSubstring (s : String) (n : Nat) : String := ⟨s.data.take n⟩

/-- JS `s.includes(pat)` for a non-empty pattern, via `splitOn`: the pattern
occurs iff splitting on it yields more than one piece. -/
def containsSub (s pat : String) : Bool := (s.splitOn pat).length != 1

/-! ## Stripe payment-link provisioner (src/events-cloudflare/src/stripe.js)

The module-level `paymentLinkCache` (a JS `Map`) is modelled as an association
list threaded through the function; `Map.set` prepends and lookup takes the
first match, which is observationally the JS overwrite semantics. -/

abbrev Cache := List (String × String)

/-- JS `Map.prototype.get` / `has` (first matching key). -/
def cacheGet : Cache → String → Option String
  | [], _ => none
  | (k', v) :: c, k => if k' = k then some v else cacheGet c k

/-- JS `Map.prototype.set` (shadowing prepend; `cacheGet` sees the new value). -/
def cacheSet (c : Cache) (k v : String) : Cache := (k, v) :: c

/-- The `event` argument of `getOrCreateStripePaymentLink` as built by the
worker (`eventWithPrice`): fields that only go into elided Stripe request
payloads (description, url, date, location) are omitted; `""` models an
absent/falsy link field. -/
structure StripeEv where
  id : String
  name : String
  price : ℚ
  productName : String
  ticket_link : String
  stripe_payment_link : String
deriving DecidableEq, Repr

/-- Outcomes of the three Stripe creation endpoints for one invocation:
`none` models a response carrying `data.error` (or a thrown fetch, which the
function catches the same way — it returns null); `some x` models a successful
response with the created object's id/url. -/
structure StripeApi where
  productResult : Option String
  priceResult : Option String
  linkResult : Option String
deriving DecidableEq, Repr

/-- The Stripe creation calls, in the order the function issues them. -/
inductive StripeCall
  | createProduct
  | createPrice
  | createPaymentLink
deriving DecidableEq, Repr

/-- Result of one `getOrCreateStripePaymentLink` call: the returned link
(`none` models the JS `null` returns), the cache after the call, and the
Stripe creation calls performed. -/
structure StripeOut where
  link : Option String
  cache : Cache
  calls : List StripeCall
deriving DecidableEq, Repr

/-- stripe.js line 14: `` `${event.id}_${event.productName}_${event.price}` ``;
`toString` on `ℚ` stands in for JS number formatting — the only property the
code relies on is that equal (id, productName, price) triples give equal
keys. -/
def cacheKey (ev : StripeEv) : String :=
  ev.id ++ "_" ++ ev.productName ++ "_" ++ toString ev.price

/-- stripe.js `getOrCreateStripePaymentLink`, lines 12-163: cache lookup
first; then the event's own `ticket_link`; then the ticket's
`stripe_payment_link`; otherwise create product, price and payment link in
sequence, returning null (and leaving the cache untouched) as soon as one
response carries an error, and caching the created url on success. -/
def getOrCreateStripePaymentLink (api : StripeApi) (ev : StripeEv) (cache : Cache) :
    StripeOut :=
  match cacheGet cache (cacheKey ev) with
  | some cachedLink => ⟨some cachedLink, cache, []⟩
  | none =>
    if ev.ticket_link ≠ "" then
      ⟨some ev.ticket_link, cacheSet cache (cacheKey ev) ev.ticket_link, []⟩
    else if ev.stripe_payment_link ≠ "" then
      ⟨some ev.stripe_payment_link, cacheSet cache (cacheKey ev) ev.stripe_payment_link, []⟩
    else
      match api.productResult with
      | none => ⟨none, cache, [.createProduct]⟩
      | some _pid =>
        match api.priceResult with
        | none => ⟨none, cache, [.createProduct, .createPrice]⟩
        | some _prid =>
          match api.linkResult with
          | none => ⟨none, cache, [.createProduct, .createPrice, .createPaymentLink]⟩
          | some url =>
            ⟨some url, cacheSet cache (cacheKey ev) url,
              [.createProduct, .createPrice, .createPaymentLink]⟩

/-- The cache evolution over a sequence of provisioning calls within one
running instance. -/
def runStripe (calls : List (StripeApi × StripeEv)) (c : Cache) : Cache :=
  calls.foldl (fun acc p => (getOrCreateStripePaymentLink p.1 p.2 acc).cache) c

lemma cacheGet_set_self (c : Cache) (k v : String) :
    cacheGet (cacheSet c k v) k = some v := by
  simp [cacheGet, cacheSet]

lemma cacheGet_set_ne (c : Cache) (k k' v : String) (h : k' ≠ k) :
    cacheGet (cacheSet c k' v) k = cacheGet c k := by
  simp [cacheGet, cacheSet, h]

/-- A link returned by the provisioner is recorded in the returned cache under
the event's composite key. -/
lemma getOrCreate_link_cached (api : StripeApi) (ev : StripeEv) (c : Cache)
    (L : String) (h : (getOrCreateStripePaymentLink api ev c).link = some L) :
    cacheGet (getOrCreateStripePaymentLink api ev c).cache (cacheKey ev) = some L := by
  unfold getOrCreateStripePaymentLink at h ⊢
  revert h
  cases hc : cacheGet c (cacheKey ev) with
  | some l =>
    intro h
    simp at h
    rw [hc, h]
  | none =>
    intro h
    by_cases h1 : ev.ticket_link = ""
    · by_cases h2 : ev.stripe_payment_link = ""
      · cases hp : api.productResult with
        | none => simp [h1, h2, hp] at h
        | some pid =>
          cases hpr : api.priceResult with
          | none => simp [h1, h2, hp, hpr] at h
          | some prid =>
            cases hl : api.linkResult with
            | none => simp [h1, h2, hp, hpr, hl] at h
            | some url =>
              simp only [h1, h2, hp, hpr, hl] at h ⊢
              simp at h
              simp [← h, cacheGet_set_self]
      · simp only [h1, h2] at h ⊢
        simp [h2] at h
        simp [h1, h2, ← h, cacheGet_set_self]
    · simp only [h1] at h ⊢
      simp [h1] at h
      simp [h1, ← h, cacheGet_set_self]

/-- One provisioning call never erases an existing cache entry: the function
only issues `Map.set` after a failed lookup, so a present key is never
overwritten with a different value. -/
lemma getOrCreate_preserves_cache (api : StripeApi) (ev : StripeEv) (c : Cache)
    (k L : String) (h : cacheGet c k = some L) :
    cacheGet (getOrCreateStripePaymentLink api ev c).cache k = some L := by
  unfold getOrCreateStripePaymentLink
  cases hc : cacheGet c (cacheKey ev) with
  | some l => simpa using h
  | none =>
    have hne : cacheKey ev ≠ k := by
      intro he; rw [he] at hc; rw [hc] at h; exact Option.noConfusion h
    by_cases h1 : ev.ticket_link = ""
    · by_cases h2 : ev.stripe_payment_link = ""
      · cases hp : api.productResult with
        | none => simpa [h1, h2, hp] using h
        | some pid =>
          cases hpr : api.priceResult with
          | none => simpa [h1, h2, hp, hpr] using h
          | some prid =>
            cases hl : api.linkResult with
            | none => simpa [h1, h2, hp, hpr, hl] using h
            | some url =>
              simpa [h1, h2, hp, hpr, hl,
                cacheGet_set_ne c k (cacheKey ev) _ hne] using h
      · simpa [h1, h2, cacheGet_set_ne c k (cacheKey ev) _ hne] using h
    · simpa [h1, cacheGet_set_ne c k (cacheKey ev) _ hne] using h

/-- Cache entries survive any sequence of later provisioning calls. -/
lemma runStripe_preserves_cache (calls : List (StripeApi × StripeEv))
    (c : Cache) (k L : String) (h : cacheGet c k = some L) :
    cacheGet (runStripe calls c) k = some L := by
  induction calls generalizing c with
  | nil => simpa [runStripe] using h
  | cons p rest ih =>
    simp only [runStripe, List.foldl_cons]
    exact ih _ (getOrCreate_preserves_cache p.1 p.2 c k L h)

/-- A cache hit returns the cached link, leaves the cache unchanged and makes
no Stripe call. -/
lemma getOrCreate_cache_hit (api : StripeApi) (ev : StripeEv) (c : Cache)
    (L : String) (h : cacheGet c (cacheKey ev) = some L) :
    getOrCreateStripePaymentLink api ev c = ⟨some L, c, []⟩ := by
  unfold getOrCreateStripePaymentLink
  simp [h]

/-! ### Claims about the provisioner (stripe.js) -/

/-- Claim C5: within one running instance, once a `getOrCreateStripePaymentLink`
call for a given event id, product name and price has returned a link, every
later call with the same id, product name and price returns that same link
from the in-memory mapping, leaves the cache unchanged, and performs no Stripe
creation call. -/
theorem stripe_paymentLink_idempotent_per_key
    (api api' : StripeApi) (ev ev' : StripeEv) (c : Cache) (L : String)
    (rest : List (StripeApi × StripeEv))
    (h1 : (getOrCreateStripePaymentLink api ev c).link = some L)
    (hid : ev'.id = ev.id) (hpn : ev'.productName = ev.productName)
    (hpr : ev'.price = ev.price) :
    getOrCreateStripePaymentLink api' ev'
        (runStripe rest (getOrCreateStripePaymentLink api ev c).cache) =
      ⟨some L, runStripe rest (getOrCreateStripePaymentLink api ev c).cache, []⟩ := by
  have hkey : cacheKey ev' = cacheKey ev := by
    simp [cacheKey, hid, hpn, hpr]
  have h2 := getOrCreate_link_cached api ev c L h1
  have h3 := runStripe_preserves_cache rest _ _ _ h2
  rw [← hkey] at h3
  exact getOrCreate_cache_hit api' ev' _ L h3

def w5firstApi : StripeApi := ⟨some "prod_1", some "price_1", some "https://buy.stripe.test/a"⟩

def w5event : StripeEv := ⟨"ev_1", "Gala", 25, "Gala - GA", "", ""⟩

def w5rest : List (StripeApi × StripeEv) :=
  [(⟨some "prod_2", some "price_2", some "https://buy.stripe.test/b"⟩,
    ⟨"ev_2", "Other", 7, "Other - GA", "", ""⟩)]

theorem stripe_paymentLink_idempotent_per_key_witness :
    getOrCreateStripePaymentLink ⟨none, none, none⟩ w5event
        (runStripe w5rest (getOrCreateStripePaymentLink w5firstApi w5event []).cache) =
      ⟨some "https://buy.stripe.test/a",
        runStripe w5rest (getOrCreateStripePaymentLink w5firstApi w5event []).cache, []⟩ :=
  stripe_paymentLink_idempotent_per_key w5firstApi ⟨none, none, none⟩ w5event w5event []
    "https://buy.stripe.test/a" w5rest (by decide) rfl rfl rfl

/-- Claim C3 (amended): when the event record already carries a ticket link,
the provisioner performs no Stripe product, price or payment-link creation
call; it returns the event's own link whenever the in-memory cache has no
entry for the event's composite key (a cached link for that key, consulted
first, would take precedence — see the counterexample). -/
theorem stripe_existing_link_no_creation (api : StripeApi) (ev : StripeEv) (c : Cache)
    (h : ev.ticket_link ≠ "") :
    (getOrCreateStripePaymentLink api ev c).calls = [] ∧
    (cacheGet c (cacheKey ev) = none →
      (getOrCreateStripePaymentLink api ev c).link = some ev.ticket_link) := by
  constructor
  · unfold getOrCreateStripePaymentLink
    cases hc : cacheGet c (cacheKey ev) with
    | some l => rfl
    | none => simp [h]
  · intro hc
    unfold getOrCreateStripePaymentLink
    revert hc
    cases hc : cacheGet c (cacheKey ev) with
    | some l => intro hfalse; exact absurd hfalse (by simp)
    | none => intro _; simp [h]

def w3event : StripeEv := ⟨"ev_9", "Expo", 3, "Expo - GA", "https://buy.stripe.test/x", ""⟩

theorem stripe_existing_link_no_creation_witness :
    (getOrCreateStripePaymentLink ⟨none, none, none⟩ w3event []).calls = [] ∧
    (getOrCreateStripePaymentLink ⟨none, none, none⟩ w3event []).link =
      some w3event.ticket_link :=
  ⟨(stripe_existing_link_no_creation ⟨none, none, none⟩ w3event [] (by decide)).1,
   (stripe_existing_link_no_creation ⟨none, none, none⟩ w3event [] (by decide)).2 rfl⟩

def cex3event : StripeEv := ⟨"ev_1", "Gala", 10, "Gala - GA", "https://pay.test/new", ""⟩

def cex3cache : Cache := [(cacheKey cex3event, "https://pay.test/stale")]

/-- Claim C3 as frozen is false: on a page view where the event carries ticket
link `https://pay.test/new` but the in-memory cache already holds
`https://pay.test/stale` under the event's composite key, the provisioner
returns the stale cached link, not the event's existing link (the cache is
consulted before the event's `ticket_link`, stripe.js lines 17-28). -/
theorem stripe_existing_link_cache_shadow_cex :
    cex3event.ticket_link ≠ "" ∧
    (getOrCreateStripePaymentLink ⟨none, none, none⟩ cex3event cex3cache).link ≠
      some cex3event.ticket_link ∧
    (getOrCreateStripePaymentLink ⟨none, none, none⟩ cex3event cex3cache).link =
      some "https://pay.test/stale" := by
  have hc : cacheGet cex3cache (cacheKey cex3event) = some "https://pay.test/stale" := by
    simp [cex3cache, cacheGet]
  rw [getOrCreate_cache_hit ⟨none, none, none⟩ cex3event cex3cache _ hc]
  refine ⟨by decide, by decide, rfl⟩

/-! ## Guestbook writer (src/unnamed/part_000, guestbook.js) and the
`POST /api/guestbook` handler (src/unnamed/part_001 lines 32-194; the same
handler text appears in src/unnamed/part_002). -/

/-- The parsed guestbook form: `formData.get` yields a string or null. -/
structure GuestForm where
  name : Option String
  email : Option String
  phone : Option String
  contactPreference : Option String
  message : Option String
  eventId : Option String
deriving DecidableEq, Repr

/-- The JSON body returned by the Notion create-page call for the guest:
`id = ""` models a response without an id, `object = "error"` a Notion error
object with its `message`. -/
structure GuestResp where
  id : String
  object : String
  message : String
deriving DecidableEq, Repr

/-- The environment fields the guestbook handler inspects (`null`/absent and
the empty string are both falsy for `NOTION_PEOPLE_DATABASE_ID`). -/
structure GuestbookEnv where
  peopleDb : Option String
deriving DecidableEq, Repr

/-- Outcomes of the three document-store writes in submission order:
`createGuest` may throw (`.error`), return JSON `null` (`.ok none`) or return
a body; the other two either resolve or throw, and the handler ignores their
value. -/
structure GuestbookApi where
  createGuest : Except String (Option GuestResp)
  patchAttended : Except String Unit
  createComment : Except String Unit
deriving Repr

/-- The document-store calls the guestbook handler can issue. -/
inductive GCall
  | createGuest
  | patchAttended
  | createComment
deriving DecidableEq, Repr

/-- An HTTP response of the guestbook handler: a rendered debug page
(identified by its title) or a redirect. -/
inductive GResult
  | page (status : Nat) (title : String)
  | redirect (status : Nat) (location : String)
deriving DecidableEq, Repr

/-- The handler's response together with the document-store calls it made. -/
structure GOut where
  result : GResult
  calls : List GCall
deriving DecidableEq, Repr

/-- The `POST /api/guestbook` handler (part_001/part_002): parse the form
(parse failure → 500 debug page), validate name/email/eventId (→ 400),
require the people database id (→ 500), create the guest, then — swallowing
any thrown error — patch the Events Attended relation when the response
carries an id, and create a comment when a message was supplied; finally turn
a Notion error object into a schema redirect or a 500 page, and otherwise
redirect 303 to the `redirect` query override or to
`/events/{id}?guestbook=thanks`.  An `.error` value is an uncaught JS throw
escaping the handler.  The redirect target is modelled as the path plus query
handed to `new URL(path, request.url)` (resolving against the request origin
preserves both). -/
def handleGuestbook (formOutcome : Except String GuestForm) (env : GuestbookEnv)
    (api : GuestbookApi) (redirectParam : Option String) : Except String GOut :=
  match formOutcome with
  | .error _ => .ok ⟨.page 500 "Form Data Error", []⟩
  | .ok f =>
    -- line 67: `message: formData.get('message') || ''`
    let message := f.message.getD ""
    -- line 76: `if (!guestData.name || !guestData.email || !guestData.eventId)`
    if ¬(jsTruthyO f.name ∧ jsTruthyO f.email ∧ jsTruthyO f.eventId) then
      .ok ⟨.page 400 "Missing Required Fields", []⟩
    -- line 89: `if (!env.NOTION_PEOPLE_DATABASE_ID)`
    else if ¬ jsTruthyO env.peopleDb then
      .ok ⟨.page 500 "Configuration Error", []⟩
    else
      match api.createGuest with
      | .error e => .error e
      | .ok none =>
        -- line 101 reads `.id` off the JSON `null` response: TypeError thrown
        -- before the `if (!notionResponse)` guard at line 143 can run
        .error "TypeError: Cannot read properties of null"
      | .ok (some resp) =>
        let calls : List GCall :=
          [.createGuest]
            ++ (if resp.id ≠ "" then [.patchAttended] else [])
            ++ (if message ≠ "" ∧ resp.id ≠ "" then [.createComment] else [])
        -- line 150: `if (notionResponse && notionResponse.object === 'error')`
        if resp.object = "error" then
          -- line 154: `notionResponse.message.includes('not a property that exists')`
          if resp.message ≠ "" ∧ containsSub resp.message "not a property that exists" then
            .ok ⟨.redirect 303
              ("/events/" ++ f.eventId.getD "" ++ "?guestbook=error&reason=schema"), calls⟩
          else
            .ok ⟨.page 500 "Notion API Error (Guestbook)", calls⟩
        else
          -- line 182: `if (url.searchParams.get('redirect'))`
          match redirectParam with
          | some r =>
            if r ≠ "" then .ok ⟨.redirect 303 r, calls⟩
            else .ok ⟨.redirect 303
              ("/events/" ++ f.eventId.getD "" ++ "?guestbook=thanks"), calls⟩
          | none =>
            .ok ⟨.redirect 303
              ("/events/" ++ f.eventId.getD "" ++ "?guestbook=thanks"), calls⟩

/-- The handler's HTTP result, when it did not throw. -/
def gResultOf : Except String GOut → Option GResult
  | .ok o => some o.result
  | .error _ => none

/-- The document-store calls the handler made, when it did not throw. -/
def gCallsOf : Except String GOut → List GCall
  | .ok o => o.calls
  | .error _ => []

/-! ### Claims about the guestbook handler -/

/-- Claim C1: a submission with truthy name, email and event id whose
create-guest call succeeds (the Notion response carries an id and is not an
error object) still yields a 303 redirect to
`/events/{id}?guestbook=thanks` even when the follow-up Events-Attended
relation patch throws — the patch was attempted and its failure is
swallowed. -/
theorem guestbook_patch_failure_redirects_thanks
    (f : GuestForm) (env : GuestbookEnv) (api : GuestbookApi)
    (resp : GuestResp) (err : String)
    (hn : jsTruthyO f.name = true) (he : jsTruthyO f.email = true)
    (hev : jsTruthyO f.eventId = true) (hdb : jsTruthyO env.peopleDb = true)
    (hc : api.createGuest = .ok (some resp))
    (hid : resp.id ≠ "") (hobj : resp.object ≠ "error")
    (_hpatch : api.patchAttended = .error err) :
    gResultOf (handleGuestbook (.ok f) env api none) =
      some (.redirect 303 ("/events/" ++ f.eventId.getD "" ++ "?guestbook=thanks")) ∧
    GCall.patchAttended ∈ gCallsOf (handleGuestbook (.ok f) env api none) := by
  unfold handleGuestbook
  simp only [hn, he, hev, hdb, hc, hid, hobj]
  simp [gResultOf, gCallsOf, hid, hobj]

def w1form : GuestForm :=
  ⟨some "Ada", some "ada@example.test", none, none, some "great event", some "ev_42"⟩

def w1api : GuestbookApi :=
  ⟨.ok (some ⟨"person_1", "page", ""⟩), .error "relation patch failed", .ok ()⟩

theorem guestbook_patch_failure_redirects_thanks_witness :
    gResultOf (handleGuestbook (.ok w1form) ⟨some "people_db"⟩ w1api none) =
      some (.redirect 303 "/events/ev_42?guestbook=thanks") ∧
    GCall.patchAttended ∈ gCallsOf (handleGuestbook (.ok w1form) ⟨some "people_db"⟩ w1api none) :=
  guestbook_patch_failure_redirects_thanks w1form ⟨some "people_db"⟩ w1api
    ⟨"person_1", "page", ""⟩ "relation patch failed"
    rfl rfl rfl rfl rfl (by decide) (by decide) rfl

/-- Claim C7: a submission in which name, email or event id is missing or
empty is answered with a 400 debug page before any document-store call is
made. -/
theorem guestbook_missing_fields_rejected
    (f : GuestForm) (env : GuestbookEnv) (api : GuestbookApi) (rp : Option String)
    (h : jsTruthyO f.name = false ∨ jsTruthyO f.email = false ∨
      jsTruthyO f.eventId = false) :
    handleGuestbook (.ok f) env api rp = .ok ⟨.page 400 "Missing Required Fields", []⟩ := by
  unfold handleGuestbook
  rcases h with h | h | h <;> simp [h]

theorem guestbook_missing_fields_rejected_witness :
    handleGuestbook
        (.ok ⟨some "Ada", some "", none, none, none, some "ev_42"⟩)
        ⟨some "people_db"⟩ ⟨.ok (some ⟨"p", "page", ""⟩), .ok (), .ok ()⟩ none =
      .ok ⟨.page 400 "Missing Required Fields", []⟩ :=
  guestbook_missing_fields_rejected
    ⟨some "Ada", some "", none, none, none, some "ev_42"⟩
    ⟨some "people_db"⟩ ⟨.ok (some ⟨"p", "page", ""⟩), .ok (), .ok ()⟩ none
    (Or.inr (Or.inl rfl))

/-! ## Comment creation (src/unnamed/part_000, `addCommentToNotion`,
lines 213-296).  The function validates its inputs (throwing on missing
ones) and posts a page whose `Name` title is `commentText.substring(0, 100)`
and whose `People` / `Event Comments` relations reference the guest and the
event; the HTTP send itself is elided — the value below is the record content
posted to the document store. -/

/-- The Comment record as assembled in the request body (part_000 lines
243-256). -/
structure CommentRequest where
  titleText : String
  peopleRelation : String
  eventRelation : String
deriving DecidableEq, Repr

/-- part_000 `addCommentToNotion`: input validation (lines 214-232) then the
request body (lines 243-256); `.error` models the thrown `Error`. -/
def addCommentToNotion (token commentsDatabaseId personId eventId commentText : String) :
    Except String CommentRequest :=
  if token = "" then .error "Missing Notion token"
  else if commentsDatabaseId = "" then .error "Missing comments database ID"
  else if personId = "" ∨ eventId = "" ∨ commentText = "" then
    .error "Missing required comment data fields"
  else .ok ⟨jsSubstring commentText 100, personId, eventId⟩

/-- Claim C8: for every created comment, the record's title is exactly the
first 100 characters of the submitted message — the whole message when it is
no longer than 100 characters — and its relation fields reference the given
guest and event ids. -/
theorem comment_title_truncated_100
    (token db personId eventId text : String)
    (ht : token ≠ "") (hd : db ≠ "") (hp : personId ≠ "") (he : eventId ≠ "")
    (hm : text ≠ "") :
    addCommentToNotion token db personId eventId text =
      .ok ⟨jsSubstring text 100, personId, eventId⟩ ∧
    (text.length ≤ 100 → jsSubstring text 100 = text) := by
  constructor
  · unfold addCommentToNotion
    rw [if_neg ht, if_neg hd, if_neg (not_or_intro hp (not_or_intro he hm))]
  · intro hlen
    unfold jsSubstring
    have : text.data.take 100 = text.data := List.take_of_length_le hlen
    simp [this]

theorem comment_title_truncated_100_witness :
    addCommentToNotion "tok" "comments_db" "person_1" "ev_42" "hello there" =
      .ok ⟨jsSubstring "hello there" 100, "person_1", "ev_42"⟩ ∧
    ("hello there".length ≤ 100 → jsSubstring "hello there" 100 = "hello there") :=
  comment_title_truncated_100 "tok" "comments_db" "person_1" "ev_42" "hello there"
    (by decide) (by decide) (by decide) (by decide) (by decide)

/-! ## Notion event/ticket readers (src/unnamed/part_002 lines 1156-1311,
notion.js).  Responses from the document store are modelled as already-parsed
JSON shapes. -/

/-- One entry of a `files`-type property: an external file, an uploaded file,
or some other shape (each with its nested url; `""` models a falsy url). -/
inductive NotionFile
  | external (url : String)
  | uploaded (url : String)
  | otherFile
deriving DecidableEq, Repr

/-- The `Image` property of an event page, by its Notion `type` tag.
`urlProp ""` models a url property whose value is null/empty;
`textProp none` models a `text`-type property whose `text` object is absent,
`textProp (some c)` one with content `c` (null content folded to `""`). -/
inductive ImageProp
  | urlProp (url : String)
  | filesProp (files : List NotionFile)
  | richTextProp (texts : List String)
  | textProp (textContent : Option String)
  | otherProp
deriving DecidableEq, Repr

/-- part_002 lines 1273-1300 (and the identical block in
`getAllEventsFromNotion`, lines 1221-1244): try the property shapes in the
fixed order url, files, rich_text, text; every non-matching shape — including
a files property with an empty list — leaves `imageUrl` as the empty
string. -/
def extractImageUrl : Option ImageProp → String
  | none => ""
  | some (.urlProp u) => if u ≠ "" then u else ""
  | some (.filesProp fs) =>
    match fs with
    | [] => ""
    | f :: _ =>
      match f with
      | .external u => if u ≠ "" then u else ""
      | .uploaded u => if u ≠ "" then u else ""
      | .otherFile => ""
  | some (.richTextProp ts) =>
    match ts with
    | [] => ""
    | t :: _ => t
  | some (.textProp tc) =>
    match tc with
    | none => ""
    | some c => c
  | some .otherProp => ""

/-- A Notion event page response (`GET /v1/pages/{id}`): `id = ""` models a
missing/absent id (the JS `!page || !page.id` guard); list fields hold the
`plain_text` of the corresponding rich-text arrays. -/
structure PageResp where
  id : String
  nameTitle : List String
  descriptionRich : List String
  dateStart : Option String
  eventTicketLink : Option String
  priceNumber : Option ℚ
  imageProp : Option ImageProp
deriving DecidableEq, Repr

/-- The flat event record built by `getEventFromNotion`. -/
structure EventRec where
  id : String
  name : String
  description : String
  date : String
  ticket_link : String
  price : ℚ
  image : String
deriving DecidableEq, Repr

/-- part_002 `getEventFromNotion`, lines 1259-1311: null when the response
has no id, else the flat record with `'Untitled'`/`''`/`0` defaults and the
image extracted by shape. -/
def getEventFromNotion (page : PageResp) : Option EventRec :=
  if page.id = "" then none
  else some
    { id := page.id,
      name := jsOr (page.nameTitle.headD "") "Untitled",
      description := page.descriptionRich.headD "",
      date := page.dateStart.getD "",
      ticket_link := page.eventTicketLink.getD "",
      price := page.priceNumber.getD 0,
      image := extractImageUrl page.imageProp }

/-- Claim C6: the reader's image extraction follows the fixed priority order
url / files / rich_text / text, and every non-matching shape — absent
property, empty files list, empty rich-text list, absent text object, falsy
url, unknown type — falls back to the empty string instead of erroring;
`getEventFromNotion` stores exactly this extraction in the event record. -/
theorem image_extraction_priority_fallback :
    (extractImageUrl none = "") ∧
    (extractImageUrl (some (.filesProp [])) = "") ∧
    (extractImageUrl (some .otherProp) = "") ∧
    (extractImageUrl (some (.urlProp "")) = "") ∧
    (∀ u, u ≠ "" → extractImageUrl (some (.urlProp u)) = u) ∧
    (∀ u fs, u ≠ "" → extractImageUrl (some (.filesProp (.external u :: fs))) = u) ∧
    (∀ u fs, u ≠ "" → extractImageUrl (some (.filesProp (.uploaded u :: fs))) = u) ∧
    (∀ fs, extractImageUrl (some (.filesProp (.otherFile :: fs))) = "") ∧
    (extractImageUrl (some (.richTextProp [])) = "") ∧
    (∀ t ts, extractImageUrl (some (.richTextProp (t :: ts))) = t) ∧
    (extractImageUrl (some (.textProp none)) = "") ∧
    (∀ c, extractImageUrl (some (.textProp (some c))) = c) ∧
    (∀ pg e, getEventFromNotion pg = some e → e.image = extractImageUrl pg.imageProp) := by
  refine ⟨rfl, rfl, rfl, rfl, ?_, ?_, ?_, ?_, rfl, ?_, rfl, ?_, ?_⟩
  · intro u hu; simp [extractImageUrl, hu]
  · intro u fs hu; simp [extractImageUrl, hu]
  · intro u fs hu; simp [extractImageUrl, hu]
  · intro fs; rfl
  · intro t ts; rfl
  · intro c; rfl
  · intro pg e he
    unfold getEventFromNotion at he
    by_cases hid : pg.id = ""
    · simp [hid] at he
    · simp [hid] at he
      rw [← he]

theorem image_extraction_priority_fallback_witness :
    extractImageUrl (some (.urlProp "https://img.test/a.png")) = "https://img.test/a.png" ∧
    extractImageUrl (some (.filesProp [])) = "" :=
  ⟨image_extraction_priority_fallback.2.2.2.2.1 "https://img.test/a.png" (by decide),
   image_extraction_priority_fallback.2.1⟩

/-- The ticket record produced by `getTicketsForEvent` (part_002 lines
1192-1197): id, name, price and the ticket's own Stripe payment link. -/
structure Ticket where
  id : String
  name : String
  price : ℚ
  stripe_payment_link : String
deriving DecidableEq, Repr

/-- One page of the Products/Tickets query result: the `plain_text` values of
the Name title, the `Price` number (none = missing/null, which
`parseFloat(...)` turns into NaN and `|| 0` into 0), and the
`Stripe Payment Link` url (none = missing/null). -/
structure TicketPage where
  id : String
  nameTitle : List String
  priceNumber : Option ℚ
  stripeLink : Option String
deriving DecidableEq, Repr

/-- The parsed body of the Products-database query: `isError` models
`data.object === 'error'` (with its message); `results = none` models a body
with no `results` array (the `data.results || []` fallback). -/
structure QueryResp where
  isError : Bool
  errMessage : String
  results : Option (List TicketPage)
deriving DecidableEq, Repr

/-- part_002 lines 1192-1197: one result page mapped to a ticket record. -/
def mapTicketPage (pg : TicketPage) : Ticket :=
  { id := pg.id,
    name := jsOr (pg.nameTitle.headD "") "Untitled",
    price := pg.priceNumber.getD 0,
    stripe_payment_link := pg.stripeLink.getD "" }

/-- part_002 `getTicketsForEvent`, lines 1158-1204: an error body yields the
empty list (lines 1186-1189); otherwise every page of `results` (or `[]`) is
mapped to a ticket record. -/
def getTicketsForEvent (resp : QueryResp) : List Ticket :=
  if resp.isError then [] else (resp.results.getD []).map mapTicketPage

/-- Claim C9: `getTicketsForEvent` is total over document-store responses —
an error body yields `[]` instead of a throw; otherwise every result page is
mapped (none dropped) to a ticket whose name is never empty (`'Untitled'`
default), whose price is a (non-NaN) rational defaulting to 0 when the Price
property is missing, and whose payment-link field defaults to the empty
string. -/
theorem getTicketsForEvent_total_defaults :
    (∀ m res, getTicketsForEvent ⟨true, m, res⟩ = []) ∧
    (∀ resp, resp.isError = false →
      (getTicketsForEvent resp).length = (resp.results.getD []).length) ∧
    (∀ resp t, t ∈ getTicketsForEvent resp → t.name ≠ "") ∧
    (∀ pg, pg.priceNumber = none → (mapTicketPage pg).price = 0) ∧
    (∀ pg, pg.stripeLink = none → (mapTicketPage pg).stripe_payment_link = "") := by
  refine ⟨?_, ?_, ?_, ?_, ?_⟩
  · intro m res; rfl
  · intro resp h; simp [getTicketsForEvent, h]
  · intro resp t ht
    unfold getTicketsForEvent at ht
    by_cases h : resp.isError
    · simp [h] at ht
    · simp [h] at ht
      obtain ⟨pg, _, hpg⟩ := ht
      rw [← hpg]
      unfold mapTicketPage jsOr
      by_cases hn : pg.nameTitle.head?.getD "" = "" <;>
        simp [List.headD_eq_head?_getD, hn]
  · intro pg h; simp [mapTicketPage, h]
  · intro pg h; simp [mapTicketPage, h]

theorem getTicketsForEvent_total_defaults_witness :
    getTicketsForEvent ⟨true, "upstream error", some [⟨"t1", ["GA"], some 5, none⟩]⟩ = [] ∧
    (mapTicketPage ⟨"t1", [], none, none⟩).price = 0 ∧
    (mapTicketPage ⟨"t1", [], none, none⟩).stripe_payment_link = "" :=
  ⟨getTicketsForEvent_total_defaults.1 "upstream error" (some [⟨"t1", ["GA"], some 5, none⟩]),
   getTicketsForEvent_total_defaults.2.2.2.1 ⟨"t1", [], none, none⟩ rfl,
   getTicketsForEvent_total_defaults.2.2.2.2 ⟨"t1", [], none, none⟩ rfl⟩

/-! ## Stripe webhook handler (src/events-cloudflare/src/stripe-webhook.js) -/

/-- The checkout session carried by the webhook event (`event.data.object`):
`customer = ""` is a falsy/absent customer id; `metadata = none` models an
absent metadata object, otherwise its key/value pairs. -/
structure CheckoutSession where
  customer : String
  metadata : Option (List (String × String))
  amountTotalCents : ℤ
deriving DecidableEq, Repr

/-- A Stripe webhook event: its type and checkout session. -/
structure WebhookEvent where
  type : String
  session : CheckoutSession
deriving DecidableEq, Repr

/-- The outbound calls `handleStripeWebhook` can make. -/
inductive WCall
  | fetchCustomer
  | createRevenuePage
deriving DecidableEq, Repr

/-- Oracles for the webhook's outbound calls: the Stripe customer fetch
(`none` models an error body or thrown fetch, both of which the helper turns
into null) and the Notion page creation (throw or created page id). -/
structure WebhookApi where
  customerEmailName : Option (String × String)
  notionCreate : Except String String
deriving Repr

/-- The webhook's return value (`{ success, message }`, plus the created
revenue page id when one was made). -/
structure WResult where
  success : Bool
  message : String
  revenueId : Option String
deriving DecidableEq, Repr

/-- `session.metadata.revenue_object` as the JS member access reads it. -/
def metaRevenueFlag (s : CheckoutSession) : Option String :=
  s.metadata.bind (fun m => m.lookup "revenue_object")

/-- stripe-webhook.js `handleStripeWebhook`, lines 10-49: ignore every event
whose type is not `checkout.session.completed` (line 14) and every session
whose metadata does not set `revenue_object` to `'true'` (line 21), without
any outbound call; otherwise fetch the buyer (only when a customer id is
present), create the Revenue page (the `createRevenueObject` body assembly is
elided; a thrown creation is caught into `{ success: false }`). -/
def handleStripeWebhook (ev : WebhookEvent) (api : WebhookApi) :
    WResult × List WCall :=
  if ev.type ≠ "checkout.session.completed" then
    (⟨true, "Event type " ++ ev.type ++ " ignored", none⟩, [])
  else if metaRevenueFlag ev.session ≠ some "true" then
    (⟨true, "No Revenue object requested in metadata", none⟩, [])
  else
    let customerCalls : List WCall :=
      if ev.session.customer ≠ "" then [.fetchCustomer] else []
    match api.notionCreate with
    | .error e => (⟨false, e, none⟩, customerCalls ++ [.createRevenuePage])
    | .ok pageId =>
      (⟨true, "Revenue object created successfully", some pageId⟩,
        customerCalls ++ [.createRevenuePage])

/-- Claim C10: a webhook event whose type is not
`checkout.session.completed`, or whose session metadata does not set
`revenue_object` to `'true'`, is answered with a success result and triggers
no Notion or Stripe API call. -/
theorem webhook_ignores_non_checkout (ev : WebhookEvent) (api : WebhookApi)
    (h : ev.type ≠ "checkout.session.completed" ∨ metaRevenueFlag ev.session ≠ some "true") :
    (handleStripeWebhook ev api).1.success = true ∧
    (handleStripeWebhook ev api).2 = [] := by
  unfold handleStripeWebhook
  by_cases ht : ev.type = "checkout.session.completed"
  · rcases h with h | h
    · exact absurd ht h
    · simp [ht, h]
  · simp [ht]

theorem webhook_ignores_non_checkout_witness :
    (handleStripeWebhook ⟨"invoice.paid", ⟨"cus_1", some [("revenue_object", "true")], 500⟩⟩
        ⟨some ("a@b.test", "A"), .ok "rev_1"⟩).1.success = true ∧
    (handleStripeWebhook ⟨"invoice.paid", ⟨"cus_1", some [("revenue_object", "true")], 500⟩⟩
        ⟨some ("a@b.test", "A"), .ok "rev_1"⟩).2 = [] :=
  webhook_ignores_non_checkout
    ⟨"invoice.paid", ⟨"cus_1", some [("revenue_object", "true")], 500⟩⟩
    ⟨some ("a@b.test", "A"), .ok "rev_1"⟩ (Or.inl (by decide))

/-! ## HTML tickets section (src/events-cloudflare/src/templates.js,
`renderTicketsSection`, multi-ticket version, lines 54-186) -/

/-- A processed ticket as pushed into `ticketsWithLinks` by the part_002 event
handler (spread of the base ticket plus `ticket_link`/`isFree`; the base
tickets carry no description, so the spread's `description` is `""`). -/
structure TicketW where
  id : String
  name : String
  price : ℚ
  stripe_payment_link : String
  ticket_link : String
  isFree : Bool
  description : String
deriving DecidableEq, Repr

/-- JS `Number.prototype.toFixed(2)`: rounding to the nearest hundredth and
printing two decimals (ties modelled by mathlib `round`; only determinism of
the rendering matters to the claims). -/
def toFixed2 (q : ℚ) : String :=
  let n : ℤ := round (q * 100)
  let sign := if n < 0 then "-" else ""
  let m := n.natAbs
  sign ++ toString (m / 100) ++ "." ++
    (if m % 100 < 10 then "0" else "") ++ toString (m % 100)

/-- The `${x ? `<div class="ticket-description-box">...` : ''}` interpolation
used by every ticket-option branch (templates.js lines 95, 109, 122, 172). -/
def descBoxHtml (d : String) : String :=
  if d ≠ "" then "<div class=\"ticket-description-box\">" ++ d ++ "</div>" else ""

/-- templates.js lines 84-129: the HTML for one entry of `ticketsWithLinks`
(free / pending / available). -/
def renderTicketOption (t : TicketW) : String :=
  if t.isFree then
    "\n          <div class=\"ticket-option free-ticket\">\n            <div class=\"ticket-header\">\n              <h3 class=\"ticket-name\">"
      ++ jsOr t.name "General Admission"
      ++ "</h3>\n              <span class=\"ticket-price free\">Free</span>\n            </div>\n            "
      ++ descBoxHtml t.description
      ++ "\n            <p class=\"ticket-status\">This ticket is free. No registration required.</p>\n          </div>\n        "
  else if t.ticket_link = "" then
    "\n          <div class=\"ticket-option pending-ticket\">\n            <div class=\"ticket-header\">\n              <h3 class=\"ticket-name\">"
      ++ jsOr t.name "General Admission"
      ++ "</h3>\n              <span class=\"ticket-price\">$" ++ toFixed2 t.price
      ++ "</span>\n            </div>\n            "
      ++ descBoxHtml t.description
      ++ "\n            <p class=\"ticket-status pending\">Tickets for this option are being prepared. Please check back soon.</p>\n          </div>\n        "
  else
    "\n        <div class=\"ticket-option available-ticket\">\n          <div class=\"ticket-header\">\n            <h3 class=\"ticket-name\">"
      ++ jsOr t.name "General Admission"
      ++ "</h3>\n            <span class=\"ticket-price\">$" ++ toFixed2 t.price
      ++ "</span>\n          </div>\n          "
      ++ descBoxHtml t.description
      ++ "\n          <div class=\"ticket-actions\">\n            <a href=\"" ++ t.ticket_link
      ++ "\" class=\"button primary-button\" target=\"_blank\">Register Now</a>\n            <a href=\""
      ++ t.ticket_link
      ++ "\" class=\"view-link\" target=\"_blank\">View Payment Page</a>\n          </div>\n        </div>\n      "

/-- templates.js `renderTicketsSection` (multi-ticket version, lines 54-186):
free-event message first; then the ticket-option list (with an emptiness
fallback); then the single-link fallbacks; finally the single-ticket
registration block.  An undefined `ticketsWithLinks` is the default `[]`. -/
def renderTicketsSection (ticketLink : String) (isFreeEvent : Bool)
    (hasTickets : Bool) (ticketDescription : String)
    (ticketsWithLinks : List TicketW) : String :=
  if isFreeEvent then
    "\n      <p>This is a free event. No registration required.</p>\n    "
  else if ticketsWithLinks.length > 0 then
    let ticketOptionsHtml := String.join (ticketsWithLinks.map renderTicketOption)
    if ticketOptionsHtml.trim = "" then
      "\n        <p>Tickets for this event are being prepared.</p>\n        <p>Please check back soon to register.</p>\n      "
    else
      "\n      <div class=\"ticket-options\">\n        <p class=\"ticket-prompt\">Select a ticket option:</p>\n        "
        ++ ticketOptionsHtml ++ "\n      </div>\n    "
  else if ticketLink = "" then
    if hasTickets then
      "\n        <p>Tickets for this event are being prepared.</p>\n        <p>Please check back soon to register.</p>\n      "
    else
      "\n      <p>No tickets available for this event at this time.</p>\n      <p>Check back later for registration details.</p>\n    "
  else
    "\n    <div class=\"ticket-info\">\n      " ++ descBoxHtml ticketDescription
      ++ "\n      <p class=\"ticket-prompt\">Secure your spot at this event!</p>\n      <div class=\"ticket-actions\">\n        <a href=\""
      ++ ticketLink
      ++ "\" class=\"button primary-button\" target=\"_blank\">Register Now</a>\n        <a href=\""
      ++ ticketLink
      ++ "\" class=\"view-link\" target=\"_blank\">View Payment Page</a>\n      </div>\n    </div>\n  "

/-! ## Event page handler (src/unnamed/part_002, lines 196-458) -/

/-- part_002 lines 291-306: the `eventWithPrice` object handed to the
provisioner for one priced ticket. -/
def mkEventWithPrice (ev : EventRec) (t : Ticket) : StripeEv :=
  { id := ev.id,
    name := ev.name,
    price := t.price,
    productName :=
      if t.name ≠ "" then ev.name ++ " - " ++ t.name else "Ticket: " ++ ev.name,
    ticket_link := ev.ticket_link,
    stripe_payment_link := t.stripe_payment_link }

/-- part_002 lines 262-353: the per-ticket loop.  `apis n` is the Stripe
oracle for the `n`-th `getOrCreateStripePaymentLink` invocation of this
request; the loop returns the `ticketsWithLinks` array, the final cache and
the Stripe creation calls, in order.  (The per-ticket `catch` is unreachable:
nothing inside the loop throws — the provisioner catches internally and the
Notion ticket patch at line 338 is commented out.) -/
def processTickets (ev : EventRec) (apis : Nat → StripeApi) :
    List Ticket → Cache → Nat → List TicketW × Cache × List StripeCall
  | [], c, _ => ([], c, [])
  | t :: ts, c, n =>
    -- line 265: `if (!ticket.price || ticket.price <= 0)` — free ticket
    if t.price ≤ 0 then
      let r := processTickets ev apis ts c n
      (⟨t.id, t.name, t.price, t.stripe_payment_link, "", true, ""⟩ :: r.1, r.2.1, r.2.2)
    -- line 275: `if (ticket.stripe_payment_link)` — reuse the ticket's link
    else if t.stripe_payment_link ≠ "" then
      let r := processTickets ev apis ts c n
      (⟨t.id, t.name, t.price, t.stripe_payment_link, t.stripe_payment_link, false, ""⟩ :: r.1,
        r.2.1, r.2.2)
    else
      let out := getOrCreateStripePaymentLink (apis n) (mkEventWithPrice ev t) c
      match out.link with
      | none =>
        -- line 312: link creation failed, push the ticket without a link
        let r := processTickets ev apis ts out.cache (n + 1)
        (⟨t.id, t.name, t.price, t.stripe_payment_link, "", false, ""⟩ :: r.1,
          r.2.1, out.calls ++ r.2.2)
      | some l =>
        -- lines 324-332: store the link in both properties
        let r := processTickets ev apis ts out.cache (n + 1)
        (⟨t.id, t.name, t.price, l, l, false, ""⟩ :: r.1, r.2.1, out.calls ++ r.2.2)

/-- The mutable state at the end of the big `try` region (part_002 lines
216-397): the `ticketLink` local, the `isFreeEvent` flag, `debugInfo.tickets`
(`none` when the tickets query threw before it was set),
`event.ticketsWithLinks` (`none` when never assigned), the provisioner cache
and the Stripe creation calls. -/
structure TicketPhase where
  ticketLink : String
  isFree : Bool
  ticketsInfo : Option (List Ticket)
  twl : Option (List TicketW)
  cache : Cache
  stripeCalls : List StripeCall
deriving DecidableEq, Repr

/-- part_002 lines 216-397.  A throw from the tickets query is caught at line
393 with every local still at its initial value; a throw from
`updateEventTicketLink` (line 376) is caught with the already-made mutations
intact — both arms of that match coincide because line 403 overwrites
`event.ticket_link` with the `ticketLink` local in either case. -/
def ticketPhase (ev : EventRec) (ticketsFetch : Except String QueryResp)
    (apis : Nat → StripeApi) (updateOutcome : Except String Unit) (c : Cache) :
    TicketPhase :=
  match ticketsFetch with
  | .error _ => ⟨ev.ticket_link, false, none, none, c, []⟩
  | .ok q =>
    let tickets := getTicketsForEvent q
    -- line 229: `if (tickets && tickets.length > 0)`
    if 0 < tickets.length then
      -- line 237: `tickets.some(ticket => ticket.price && ticket.price > 0)`
      if ¬ (tickets.any fun t => decide (0 < t.price)) then
        ⟨ev.ticket_link, true, some tickets, none, c, []⟩
      -- line 248: `if (!event.name || !event.id)`
      else if ev.name = "" ∨ ev.id = "" then
        ⟨ev.ticket_link, false, some tickets, none, c, []⟩
      else
        let r := processTickets ev apis tickets c 0
        -- line 369: `ticketsWithLinks.find(t => t.ticket_link)`
        match r.1.find? (fun t => t.ticket_link != "") with
        | some tw =>
          match updateOutcome with
          | .error _ => ⟨tw.ticket_link, false, some tickets, some r.1, r.2.1, r.2.2⟩
          | .ok _ => ⟨tw.ticket_link, false, some tickets, some r.1, r.2.1, r.2.2⟩
        | none => ⟨ev.ticket_link, false, some tickets, some r.1, r.2.1, r.2.2⟩
    else ⟨ev.ticket_link, false, some tickets, none, c, []⟩

/-- The arguments part_002 line 1046 hands to `renderTicketsSection`
(`event.ticket_link`, `event.isFreeEvent`, `event.hasTickets`,
`event.ticketDescription` — never set, hence the default `""` — and
`event.ticketsWithLinks`). -/
structure RendArgs where
  ticket_link : String
  isFreeEvent : Bool
  hasTickets : Bool
  ticketDescription : String
  ticketsWithLinks : List TicketW
deriving DecidableEq, Repr

/-- The page kinds the event-page route can render. -/
inductive EPage
  | debug (title : String)
  | eventPage (args : RendArgs) (guestbookStatus : String)
deriving DecidableEq, Repr

/-- The event-page handler's response: HTTP status, rendered page, the Stripe
creation calls made and the provisioner cache after the request. -/
structure EventPageOut where
  status : Nat
  page : EPage
  stripeCalls : List StripeCall
  cache : Cache
deriving DecidableEq, Repr

/-- part_002 `GET /events/:id` (lines 196-458): a thrown event fetch → 500
debug page; a null event → 404; otherwise the big try region runs and the
event page is always rendered with status 200, with the final renderer
arguments assembled at lines 398-449. -/
def handleEventPage (eventFetch : Except String (Option EventRec))
    (ticketsFetch : Except String QueryResp) (apis : Nat → StripeApi)
    (updateOutcome : Except String Unit) (c : Cache) (guestbookParam : Option String) :
    EventPageOut :=
  match eventFetch with
  | .error _ => ⟨500, .debug "Error fetching event", [], c⟩
  | .ok none => ⟨404, .debug "Event Not Found", [], c⟩
  | .ok (some ev) =>
    let phase := ticketPhase ev ticketsFetch apis updateOutcome c
    -- line 399: `url.searchParams.get('guestbook') || ''`
    let guestbookStatus := guestbookParam.getD ""
    -- line 408: `debugInfo.tickets && debugInfo.tickets.length > 0`
    let hasTickets :=
      match phase.ticketsInfo with
      | some ts => decide (0 < ts.length)
      | none => false
    -- lines 403-416: copy ticket_link/isFreeEvent/hasTickets onto the event;
    -- an unset ticketsWithLinks becomes `[]` (line 415, or the renderer's
    -- default parameter when hasTickets is false)
    ⟨200,
      .eventPage ⟨phase.ticketLink, phase.isFree, hasTickets, "", phase.twl.getD []⟩
        guestbookStatus,
      phase.stripeCalls, phase.cache⟩

/-- The renderer arguments of a rendered event page, if one was rendered. -/
def pageArgsOf (o : EventPageOut) : Option RendArgs :=
  match o.page with
  | .eventPage a _ => some a
  | _ => none

/-- The final `ticket_link` handed to the renderer, if an event page was
rendered. -/
def argsTicketLink (o : EventPageOut) : Option String :=
  (pageArgsOf o).map (fun a => a.ticket_link)

/-- The `ticketsWithLinks` handed to the renderer (empty for other pages). -/
def argsLinks (o : EventPageOut) : List TicketW :=
  ((pageArgsOf o).map (fun a => a.ticketsWithLinks)).getD []

/-! ### Claims about the event page -/

/-- Claim C4: on a page view of an existing event that has at least one
ticket, none of which has a price strictly greater than 0, the handler marks
the event free, makes no Stripe creation call, leaves the cache untouched,
and the rendered registration section is the free-event message with no
purchase action. -/
theorem eventPage_free_event_renders_free
    (ev : EventRec) (q : QueryResp) (apis : Nat → StripeApi)
    (upd : Except String Unit) (c : Cache) (gb : Option String)
    (hne : getTicketsForEvent q ≠ [])
    (hfree : ∀ t ∈ getTicketsForEvent q, t.price ≤ 0) :
    handleEventPage (.ok (some ev)) (.ok q) apis upd c gb =
      ⟨200, .eventPage ⟨ev.ticket_link, true, true, "", []⟩ (gb.getD ""), [], c⟩ ∧
    renderTicketsSection ev.ticket_link true true "" [] =
      "\n      <p>This is a free event. No registration required.</p>\n    " := by
  have hlen : 0 < (getTicketsForEvent q).length := List.length_pos.mpr hne
  have hany : ((getTicketsForEvent q).any fun t => decide (0 < t.price)) = false := by
    simp only [List.any_eq_false, decide_eq_true_eq]
    intro t ht
    exact not_lt.mpr (hfree t ht)
  refine ⟨?_, rfl⟩
  unfold handleEventPage ticketPhase
  simp [hlen, hany]

def w4query : QueryResp := ⟨false, "", some [⟨"t1", ["GA"], some 0, none⟩]⟩

theorem eventPage_free_event_renders_free_witness :
    handleEventPage (.ok (some ⟨"ev_1", "Gala", "", "", "", 0, ""⟩)) (.ok w4query)
        (fun _ => ⟨none, none, none⟩) (.ok ()) [] none =
      ⟨200, .eventPage ⟨"", true, true, "", []⟩ "", [], []⟩ ∧
    renderTicketsSection "" true true "" [] =
      "\n      <p>This is a free event. No registration required.</p>\n    " :=
  eventPage_free_event_renders_free ⟨"ev_1", "Gala", "", "", "", 0, ""⟩ w4query
    (fun _ => ⟨none, none, none⟩) (.ok ()) [] none (by decide) (by decide)

/-- When no cached or pre-existing link applies and any one of the three
Stripe creation calls — product, price or payment link — returns an error
body, the provisioner returns null and leaves the cache untouched (stripe.js
lines 59-62, 80-83, 147-151). -/
lemma getOrCreate_anyStage_fail (api : StripeApi) (ev : StripeEv) (c : Cache)
    (h1 : ev.ticket_link = "") (h2 : ev.stripe_payment_link = "")
    (h3 : cacheGet c (cacheKey ev) = none)
    (hfail : api.productResult = none ∨ api.priceResult = none ∨
      api.linkResult = none) :
    ∃ cs, getOrCreateStripePaymentLink api ev c = ⟨none, c, cs⟩ := by
  unfold getOrCreateStripePaymentLink
  rcases hfail with h | h | h
  · exact ⟨[.createProduct], by simp [h1, h2, h3, h]⟩
  · cases hp : api.productResult with
    | none => exact ⟨[.createProduct], by simp [h1, h2, h3, hp]⟩
    | some pid => exact ⟨[.createProduct, .createPrice], by simp [h1, h2, h3, h, hp]⟩
  · cases hp : api.productResult with
    | none => exact ⟨[.createProduct], by simp [h1, h2, h3, hp]⟩
    | some pid =>
      cases hq : api.priceResult with
      | none => exact ⟨[.createProduct, .createPrice], by simp [h1, h2, h3, hp, hq]⟩
      | some prid =>
        exact ⟨[.createProduct, .createPrice, .createPaymentLink],
          by simp [h1, h2, h3, h, hp, hq]⟩

/-- When the event carries no link, no ticket carries its own link, and every
Stripe invocation errors at some stage (product, price or payment link), the
per-ticket loop pushes only linkless entries and leaves the (empty) cache
empty. -/
lemma processTickets_stripe_fail (ev : EventRec) (apis : Nat → StripeApi)
    (hev : ev.ticket_link = "")
    (hapi : ∀ n, (apis n).productResult = none ∨ (apis n).priceResult = none ∨
      (apis n).linkResult = none) :
    ∀ (ts : List Ticket) (n : Nat), (∀ t ∈ ts, t.stripe_payment_link = "") →
      (processTickets ev apis ts [] n).2.1 = [] ∧
      ∀ w ∈ (processTickets ev apis ts [] n).1, w.ticket_link = "" := by
  intro ts
  induction ts with
  | nil =>
    intro n _
    refine ⟨rfl, ?_⟩
    intro w hw
    simp [processTickets] at hw
  | cons t ts ih =>
    intro n hspl
    have hsplt : t.stripe_payment_link = "" := hspl t (List.mem_cons_self t ts)
    have hrest : ∀ t' ∈ ts, t'.stripe_payment_link = "" :=
      fun t' ht' => hspl t' (List.mem_cons_of_mem t ht')
    by_cases hp : t.price ≤ 0
    · obtain ⟨hc, hw⟩ := ih n hrest
      refine ⟨by simp [processTickets, hp, hc], ?_⟩
      intro w hw'
      simp only [processTickets, hp, if_pos] at hw'
      rcases List.mem_cons.mp hw' with h | h
      · rw [h]
      · exact hw w h
    · obtain ⟨cs, hout⟩ := getOrCreate_anyStage_fail (apis n) (mkEventWithPrice ev t) []
        (by simp [mkEventWithPrice, hev]) (by simp [mkEventWithPrice, hsplt]) rfl (hapi n)
      obtain ⟨hc, hw⟩ := ih (n + 1) hrest
      refine ⟨?_, ?_⟩
      · simp [processTickets, hp, hsplt, hout, hc]
      · intro w hw'
        simp only [processTickets, hp, hsplt, hout] at hw'
        simp at hw'
        rcases hw' with h | h
        · rw [h]
        · exact hw w h

/-- Claim C2: on a page view of an existing event with no pre-existing ticket
link (and a fresh in-memory cache), both a thrown tickets query and
error-returning Stripe calls — whether the error body comes back from the
product, the price or the payment-link creation call — are swallowed: the
handler still renders the event page with status 200, and hands the renderer
an empty ticket link and only linkless `ticketsWithLinks` entries — no
purchase link anywhere — instead of returning an error response. -/
theorem eventPage_swallows_ticket_and_stripe_errors
    (ev : EventRec) (tf : Except String QueryResp) (apis : Nat → StripeApi)
    (upd : Except String Unit) (gb : Option String)
    (hevl : ev.ticket_link = "")
    (h : (∃ e, tf = .error e) ∨
      (∃ q, tf = .ok q ∧
        (∀ n, (apis n).productResult = none ∨ (apis n).priceResult = none ∨
          (apis n).linkResult = none) ∧
        ∀ t ∈ getTicketsForEvent q, t.stripe_payment_link = "")) :
    (handleEventPage (.ok (some ev)) tf apis upd [] gb).status = 200 ∧
    argsTicketLink (handleEventPage (.ok (some ev)) tf apis upd [] gb) = some "" ∧
    ((argsLinks (handleEventPage (.ok (some ev)) tf apis upd [] gb)).all
        fun w => w.ticket_link == "") = true := by
  rcases h with ⟨e, rfl⟩ | ⟨q, rfl, hapi, hspl⟩
  · refine ⟨rfl, ?_, ?_⟩ <;>
      simp [handleEventPage, ticketPhase, argsTicketLink, argsLinks, pageArgsOf, hevl]
  · refine ⟨rfl, ?_, ?_⟩ <;>
    · unfold handleEventPage ticketPhase
      by_cases hlen : 0 < (getTicketsForEvent q).length
      · by_cases hany : ((getTicketsForEvent q).any fun t => decide (0 < t.price)) = false
        · simp [hlen, hany, argsTicketLink, argsLinks, pageArgsOf, hevl]
        · by_cases hname : ev.name = "" ∨ ev.id = ""
          · simp [hlen, hany, hname, argsTicketLink, argsLinks, pageArgsOf, hevl]
          · obtain ⟨hc, hw⟩ :=
              processTickets_stripe_fail ev apis hevl hapi (getTicketsForEvent q) 0 hspl
            have hfind : ((processTickets ev apis (getTicketsForEvent q) [] 0).1.find?
                fun w => w.ticket_link != "") = none := by
              rw [List.find?_eq_none]
              intro w hwmem
              simp [hw w hwmem]
            simp [hlen, hany, hname, hfind, argsTicketLink, argsLinks, pageArgsOf, hevl,
              List.all_eq_true]
            all_goals
              intro w hwmem
              simp [hw w hwmem]
      · simp [hlen, argsTicketLink, argsLinks, pageArgsOf, hevl]

def w2query : QueryResp := ⟨false, "", some [⟨"t1", ["GA"], some 12, none⟩]⟩

theorem eventPage_swallows_ticket_and_stripe_errors_witness :
    (handleEventPage (.ok (some ⟨"ev_1", "Gala", "", "", "", 0, ""⟩)) (.ok w2query)
        (fun _ => ⟨some "prod_x", none, some "link_x"⟩) (.ok ()) [] none).status = 200 ∧
    argsTicketLink (handleEventPage (.ok (some ⟨"ev_1", "Gala", "", "", "", 0, ""⟩))
        (.ok w2query) (fun _ => ⟨some "prod_x", none, some "link_x"⟩) (.ok ()) [] none) =
      some "" ∧
    ((argsLinks (handleEventPage (.ok (some ⟨"ev_1", "Gala", "", "", "", 0, ""⟩))
        (.ok w2query) (fun _ => ⟨some "prod_x", none, some "link_x"⟩) (.ok ()) [] none)).all
        fun w => w.ticket_link == "") = true :=
  eventPage_swallows_ticket_and_stripe_errors ⟨"ev_1", "Gala", "", "", "", 0, ""⟩
    (.ok w2query) (fun _ => ⟨some "prod_x", none, some "link_x"⟩) (.ok ()) none rfl
    (Or.inr ⟨w2query, rfl, fun _ => Or.inr (Or.inl rfl), by decide⟩)
